import Mathlib

/-!
Verification of the wghttp gateway core (src/main.go).

The Go program is shallowly embedded: pure control flow becomes Lean
functions, and calls into external collaborators (the Go standard library
`net`/`netip` packages, the wireguard-go `netstack` and `device` libraries,
and repository files not given here, namely `ipcSet` and `newConnBind`)
become oracle fields of explicit environment records.  `setupNet`
additionally produces a trace of the construction events it performs, so
that claims of the form "X is never created / never called" are statements
about the trace.
-/

/-- Which network stack a dialer or listener lives on: the host kernel
stack (`net` package) or the userspace virtual stack (`netstack.Net`). -/
inductive Stack where
  | host
  | virtual
deriving DecidableEq

/-- Abstract model of `*net.TCPAddr` as produced by `net.ResolveTCPAddr`. -/
structure TCPAddr where
  host : String
  port : Nat
deriving DecidableEq

/-- Abstract token standing for a live `net.Listener`. -/
structure Listener where
  id : Nat
deriving DecidableEq

/-- Abstract token standing for the `tun.Device` from `netstack.CreateNetTUN`. -/
structure Tun where
  id : Nat
deriving DecidableEq

/-- Abstract token standing for the `*netstack.Net` virtual stack. -/
structure Tnet where
  id : Nat
deriving DecidableEq

/-- Abstract model of a parsed `netip.Addr`. -/
structure IPAddr where
  val : String
deriving DecidableEq

/-- Modelled from the spec: the Connection Binder (`newConnBind`, whose
source file is not under src/) produces a transport-socket binding keyed by
the opaque instance identity string. -/
structure ConnBind where
  clientID : String
deriving DecidableEq

/-- Modelled from the spec: `bind(instanceIdentity) -> SocketBinding`. -/
def newConnBind (clientID : String) : ConnBind :=
  { clientID := clientID }

/-- Model of the `*device.Device` built by `device.NewDevice(tun, bind, logger)`:
the fields the claims are about are the TUN it wraps and its conn bind. -/
structure Device where
  tun : Tun
  bind : ConnBind
deriving DecidableEq

/-- Outcome of a Go function that may return an error or panic
(a `nil` interface dereference). -/
inductive GoResult (α : Type) where
  | ok (a : α)
  | err (msg : String)
  | panics
deriving DecidableEq

/-- The `options` struct of src/main.go.  Durations (`time.Duration`) are
modelled as `Int` nanoseconds, Go `int` as `Int`. -/
structure Options where
  clientIPs : List String
  clientPort : Int
  privateKey : String
  dns : String
  mtu : Int
  peerEndpoint : String
  peerKey : String
  presharedKey : String
  keepaliveInterval : Int
  resolveDNS : String
  resolveInterval : Int
  listen : String
  exitMode : String
  verbose : Bool
  clientID : String
deriving DecidableEq

/-- One go-flags struct tag set, as written on a field of `options`. -/
structure FlagSpec where
  long : String
  short : Option Char
  envVar : Option String
  envDelim : Option String
  defaultVal : Option String
  choices : List String
  hidden : Bool
deriving DecidableEq

/-- The struct tags of `options` in src/main.go, field by field, in order. -/
def optionsFlags : List FlagSpec :=
  [ { long := "client-ip", short := none, envVar := some ("CLIENT_IP"),
      envDelim := some (","), defaultVal := none, choices := [], hidden := false },
    { long := "client-port", short := none, envVar := some ("CLIENT_PORT"),
      envDelim := none, defaultVal := none, choices := [], hidden := false },
    { long := "private-key", short := none, envVar := some ("PRIVATE_KEY"),
      envDelim := none, defaultVal := none, choices := [], hidden := false },
    { long := "dns", short := none, envVar := some ("DNS"),
      envDelim := none, defaultVal := none, choices := [], hidden := false },
    { long := "mtu", short := none, envVar := some ("MTU"),
      envDelim := none, defaultVal := some ("1280"), choices := [], hidden := false },
    { long := "peer-endpoint", short := none, envVar := some ("PEER_ENDPOINT"),
      envDelim := none, defaultVal := none, choices := [], hidden := false },
    { long := "peer-key", short := none, envVar := some ("PEER_KEY"),
      envDelim := none, defaultVal := none, choices := [], hidden := false },
    { long := "preshared-key", short := none, envVar := some ("PRESHARED_KEY"),
      envDelim := none, defaultVal := none, choices := [], hidden := false },
    { long := "keepalive-interval", short := none, envVar := some ("KEEPALIVE_INTERVAL"),
      envDelim := none, defaultVal := none, choices := [], hidden := false },
    { long := "resolve-dns", short := none, envVar := some ("RESOLVE_DNS"),
      envDelim := none, defaultVal := none, choices := [], hidden := false },
    { long := "resolve-interval", short := none, envVar := some ("RESOLVE_INTERVAL"),
      envDelim := none, defaultVal := some ("1m"), choices := [], hidden := false },
    { long := "listen", short := none, envVar := some ("LISTEN"),
      envDelim := none, defaultVal := some ("localhost:8080"), choices := [], hidden := false },
    { long := "exit-mode", short := none, envVar := some ("EXIT_MODE"),
      envDelim := none, defaultVal := some ("remote"),
      choices := ["remote", "local"], hidden := false },
    { long := "verbose", short := some 'v', envVar := none,
      envDelim := none, defaultVal := none, choices := [], hidden := false },
    { long := "client-id", short := none, envVar := some ("CLIENT_ID"),
      envDelim := none, defaultVal := none, choices := [], hidden := true } ]

/-- Look a flag up by its long name. -/
def flagByLong (l : String) : Option FlagSpec :=
  optionsFlags.find? (fun f => f.long = l)

/-- External collaborators used by `proxyListener`: the host `net` package
and the virtual stack `tnet`. -/
structure NetEnv where
  resolveTCPAddr : String → Except String TCPAddr
  hostListenTCP : TCPAddr → Except String Listener
  tnetListenTCP : TCPAddr → Except String Listener

/-- `proxyDialer` of src/main.go: a named return `dialer` that the switch
assigns only for exit modes "local" (host `net.Dialer`) and "remote"
(`tnet.DialContext`); any other mode leaves it nil (`none`).  The `Stack`
value records whose `DialContext` the returned closure is. -/
def proxyDialer (opts : Options) : Option Stack :=
  if opts.exitMode = "local" then some Stack.host
  else if opts.exitMode = "remote" then some Stack.virtual
  else none

/-- `proxyListener` of src/main.go: resolve the listen address, then create
the TCP listener on the virtual stack ("local") or on the host stack
("remote"), wrapping errors.  For any other exit mode the Go code leaves
`tcpListener` nil and dereferences it at `tcpListener.Addr()`: `panics`. -/
def proxyListener (opts : Options) (env : NetEnv) : GoResult (Stack × Listener) :=
  match env.resolveTCPAddr opts.listen with
  | Except.error e => GoResult.err ("resolve listen addr: " ++ e)
  | Except.ok tcpAddr =>
    if opts.exitMode = "local" then
      match env.tnetListenTCP tcpAddr with
      | Except.error e => GoResult.err ("create listener on netstack: " ++ e)
      | Except.ok l => GoResult.ok (Stack.virtual, l)
    else if opts.exitMode = "remote" then
      match env.hostListenTCP tcpAddr with
      | Except.error e => GoResult.err ("create listener on local net: " ++ e)
      | Except.ok l => GoResult.ok (Stack.host, l)
    else GoResult.panics

/-- Construction events performed by `setupNet`, in execution order. -/
inductive SetupEvent where
  | createNetTUN (ips : List IPAddr) (mtu : Int)
  | newDevice (bind : ConnBind)
  | ipcSetEv
  | devUpEv
deriving DecidableEq

/-- External collaborators used by `setupNet`: `netip.ParseAddr`,
`netstack.CreateNetTUN`, and the device operations `ipcSet` (repository
code not under src/) and `dev.Up()`. -/
structure SetupEnv where
  parseAddr : String → Except String IPAddr
  createNetTUN : List IPAddr → Int → Except String (Tun × Tnet)
  ipcSet : Device → Except String Unit
  devUp : Device → Except String Unit

/-- The parse loop of `setupNet`: parse each client IP string in order,
returning the first parse error, or the list of all parsed addresses. -/
def parseClientIPs (parse : String → Except String IPAddr) :
    List String → Except String (List IPAddr)
  | [] => Except.ok []
  | s :: rest =>
    match parse s with
    | Except.error e => Except.error e
    | Except.ok ip =>
      match parseClientIPs parse rest with
      | Except.error e => Except.error e
      | Except.ok ips => Except.ok (ip :: ips)

/-- `setupNet` of src/main.go.  Returns what the Go function returns, paired
with the trace of construction events that happened before returning. -/
def setupNet (opts : Options) (env : SetupEnv) :
    Except String (Device × Tnet) × List SetupEvent :=
  if opts.clientIPs.length = 0 then
    (Except.error ("client IP is required"), [])
  else
    match parseClientIPs env.parseAddr opts.clientIPs with
    | Except.error e => (Except.error ("parse client IP: " ++ e), [])
    | Except.ok clientIPs =>
      match env.createNetTUN clientIPs opts.mtu with
      | Except.error e =>
        (Except.error ("create netstack tun: " ++ e),
         [SetupEvent.createNetTUN clientIPs opts.mtu])
      | Except.ok (tun, tnet) =>
        let dev : Device := { tun := tun, bind := newConnBind opts.clientID }
        match env.ipcSet dev with
        | Except.error e =>
          (Except.error ("config device: " ++ e),
           [SetupEvent.createNetTUN clientIPs opts.mtu,
            SetupEvent.newDevice dev.bind, SetupEvent.ipcSetEv])
        | Except.ok _ =>
          match env.devUp dev with
          | Except.error e =>
            (Except.error ("bring up device: " ++ e),
             [SetupEvent.createNetTUN clientIPs opts.mtu,
              SetupEvent.newDevice dev.bind, SetupEvent.ipcSetEv,
              SetupEvent.devUpEv])
          | Except.ok _ =>
            (Except.ok (dev, tnet),
             [SetupEvent.createNetTUN clientIPs opts.mtu,
              SetupEvent.newDevice dev.bind, SetupEvent.ipcSetEv,
              SetupEvent.devUpEv])

/-- Outcome of `parser.Parse()` in `main`: success, an `ErrHelp`-typed
`*flags.Error`, any other `*flags.Error`, or a non-`flags.Error` error. -/
inductive ParseOutcome where
  | success
  | helpErr
  | flagsErr
  | otherErr
deriving DecidableEq

/-- Everything `main` consumes from the outside world. -/
structure MainEnv where
  parse : ParseOutcome
  setupEnv : SetupEnv
  netEnv : NetEnv

/-- The exit code of `main` in src/main.go as a function of the parse
outcome, `setupNet`, and `proxyListener`; `proxier.Serve` always returns in
this model (main then runs `os.Exit(1)`).  `none` is a panic (no exit
code), reachable only through `proxyListener`'s nil-listener dereference. -/
def mainExitCode (opts : Options) (env : MainEnv) : Option Nat :=
  match env.parse with
  | ParseOutcome.helpErr => some 0
  | ParseOutcome.flagsErr => some 1
  | ParseOutcome.otherErr => some 1
  | ParseOutcome.success =>
    match (setupNet opts env.setupEnv).fst with
    | Except.error _ => some 1
    | Except.ok _ =>
      match proxyListener opts env.netEnv with
      | GoResult.err _ => some 1
      | GoResult.panics => none
      | GoResult.ok _ => some 1

/-- Modelled from the spec: the Endpoint Resolver loop (its source file is
not under src/).  `resolverPeerAddr interval resolve init n` is the
session's peer address after `n` resolution triggers have fired: with
interval 0 the resolver performs no periodic work, otherwise a successful
resolution replaces the address and a failed one keeps the previous
known-good address. -/
def resolverPeerAddr (interval : Int) (resolve : Nat → Option TCPAddr)
    (init : TCPAddr) : Nat → TCPAddr
  | 0 => init
  | n + 1 =>
    let prev := resolverPeerAddr interval resolve init n
    if interval = 0 then prev
    else
      match resolve n with
      | some a => a
      | none => prev

/-- A concrete instantiation of the external world for the witnesses:
`netip.ParseAddr` accepts exactly "10.0.0.2", the other collaborators
succeed. -/
def demoSetupEnv : SetupEnv :=
  { parseAddr := fun s =>
      if s = "10.0.0.2" then Except.ok { val := s }
      else Except.error ("unable to parse IP"),
    createNetTUN := fun _ _ => Except.ok ({ id := 0 }, { id := 0 }),
    ipcSet := fun _ => Except.ok (),
    devUp := fun _ => Except.ok () }

/-- Like `demoSetupEnv`, but applying the device configuration fails. -/
def demoSetupEnvIpcFail : SetupEnv :=
  { parseAddr := fun s =>
      if s = "10.0.0.2" then Except.ok { val := s }
      else Except.error ("unable to parse IP"),
    createNetTUN := fun _ _ => Except.ok ({ id := 0 }, { id := 0 }),
    ipcSet := fun _ => Except.error ("invalid key"),
    devUp := fun _ => Except.ok () }

/-- A concrete instantiation of the listener-side collaborators: address
resolution and both listen calls succeed. -/
def demoNetEnv : NetEnv :=
  { resolveTCPAddr := fun s => Except.ok { host := s, port := 8080 },
    hostListenTCP := fun _ => Except.ok { id := 1 },
    tnetListenTCP := fun _ => Except.ok { id := 2 } }

/-- A concrete options value matching the spec's end-to-end scenario. -/
def demoOpts : Options :=
  { clientIPs := ["10.0.0.2"], clientPort := 0, privateKey := "", dns := "",
    mtu := 1280, peerEndpoint := "vpn.example.com:51820", peerKey := "",
    presharedKey := "", keepaliveInterval := 0, resolveDNS := "",
    resolveInterval := 60000000000, listen := "localhost:8080",
    exitMode := "remote", verbose := false, clientID := "" }

/-- C1: for every valid listen address (one the resolver accepts) and every
documented exit mode, whenever `proxyListener` produces a listener, exit
mode "remote" pairs the virtual-stack dialer with a host-stack listener,
exit mode "local" pairs the host-stack dialer with a virtual-stack
listener, and the dialer's stack is never the listener's stack. -/
theorem exit_mode_selects_complementary_stacks
    (opts : Options) (env : NetEnv) (addr : TCPAddr) (st : Stack) (l : Listener)
    (hres : env.resolveTCPAddr opts.listen = Except.ok addr)
    (hmode : opts.exitMode = "remote" ∨ opts.exitMode = "local")
    (hl : proxyListener opts env = GoResult.ok (st, l)) :
    (opts.exitMode = "remote" →
      proxyDialer opts = some Stack.virtual ∧ st = Stack.host) ∧
    (opts.exitMode = "local" →
      proxyDialer opts = some Stack.host ∧ st = Stack.virtual) ∧
    proxyDialer opts ≠ some st := by
  rcases hmode with hm | hm <;>
    simp only [proxyListener, hres, proxyDialer, hm] at hl ⊢
  · rcases h : env.hostListenTCP addr with l' | e <;> simp [h] at hl
    obtain ⟨h1, h2⟩ := hl
    subst h1
    simp
  · rcases h : env.tnetListenTCP addr with l' | e <;> simp [h] at hl
    obtain ⟨h1, h2⟩ := hl
    subst h1
    simp

/-- Witness for C1 at the spec's end-to-end configuration. -/
theorem exit_mode_selects_complementary_stacks_witness :
    demoNetEnv.resolveTCPAddr demoOpts.listen =
        Except.ok { host := "localhost:8080", port := 8080 } ∧
    demoOpts.exitMode = "remote" ∧
    proxyListener demoOpts demoNetEnv = GoResult.ok (Stack.host, { id := 1 }) ∧
    proxyDialer demoOpts = some Stack.virtual ∧
    proxyDialer demoOpts ≠ some Stack.host :=
  ⟨rfl, rfl, by decide,
   ((exit_mode_selects_complementary_stacks demoOpts demoNetEnv
      { host := "localhost:8080", port := 8080 } Stack.host { id := 1 }
      rfl (Or.inl rfl) (by decide)).1 rfl).1,
   by
    have h := (exit_mode_selects_complementary_stacks demoOpts demoNetEnv
      { host := "localhost:8080", port := 8080 } Stack.host { id := 1 }
      rfl (Or.inl rfl) (by decide)).2.2
    exact h⟩

/-- C10: `proxyDialer` returns a dialer exactly for the two documented exit
modes; for every other exit-mode string no switch branch assigns the named
return, so the dialer is nil. -/
theorem proxyDialer_none_iff_undocumented_mode (opts : Options) :
    (proxyDialer opts = none ↔
      opts.exitMode ≠ "local" ∧ opts.exitMode ≠ "remote") ∧
    ((proxyDialer opts).isSome ↔
      opts.exitMode = "local" ∨ opts.exitMode = "remote") := by
  by_cases h1 : opts.exitMode = "local" <;>
    by_cases h2 : opts.exitMode = "remote" <;>
    simp [proxyDialer, h1, h2]

/-- C7: the configuration surface's defaults and constraints: MTU defaults
to 1280, resolve interval to "1m", the listen address to "localhost:8080",
exit mode to "remote" with exactly the choices "remote" and "local", and
the client-id (instance identity) flag is hidden. -/
theorem options_defaults_and_constraints :
    (flagByLong ("mtu")).map FlagSpec.defaultVal = some (some ("1280")) ∧
    (flagByLong ("resolve-interval")).map FlagSpec.defaultVal = some (some ("1m")) ∧
    (flagByLong ("listen")).map FlagSpec.defaultVal = some (some ("localhost:8080")) ∧
    (flagByLong ("exit-mode")).map FlagSpec.defaultVal = some (some ("remote")) ∧
    (flagByLong ("exit-mode")).map FlagSpec.choices = some (["remote", "local"]) ∧
    (flagByLong ("client-id")).map FlagSpec.hidden = some true := by
  decide

/-- C8: with resolve interval 0 the resolver performs no periodic work: the
session's peer address after any number of would-be resolution triggers is
still the initial address, whatever each trigger would have resolved. -/
theorem resolver_interval_zero_never_updates
    (resolve : Nat → Option TCPAddr) (init : TCPAddr) (n : Nat) :
    resolverPeerAddr 0 resolve init n = init := by
  induction n with
  | zero => rfl
  | succ n ih => simp [resolverPeerAddr, ih]

/-- If any string in the list fails to parse, the whole parse loop fails. -/
theorem parseClientIPs_error_of_mem (parse : String → Except String IPAddr)
    (l : List String) (s : String) (hs : s ∈ l)
    (hbad : ∃ e, parse s = Except.error e) :
    ∃ e, parseClientIPs parse l = Except.error e := by
  induction l with
  | nil => cases hs
  | cons a rest ih =>
    rcases h : parse a with e | ip
    · exact ⟨e, by simp [parseClientIPs, h]⟩
    · have hsr : s ∈ rest := by
        rcases List.mem_cons.mp hs with rfl | hr
        · obtain ⟨e, he⟩ := hbad
          rw [h] at he
          cases he
        · exact hr
      obtain ⟨e, he⟩ := ih hsr
      exact ⟨e, by simp [parseClientIPs, h, he]⟩

/-- C2: with an empty client-address list, `setupNet` returns the
configuration error "client IP is required" with an empty construction
trace: no virtual stack and no tunnel session is created. -/
theorem setupNet_empty_clientIPs_fails
    (opts : Options) (env : SetupEnv) (h : opts.clientIPs = []) :
    setupNet opts env = (Except.error ("client IP is required"), []) := by
  simp [setupNet, h]

/-- Witness for C2: a configuration with no client IPs. -/
theorem setupNet_empty_clientIPs_fails_witness :
    { demoOpts with clientIPs := [] }.clientIPs = [] ∧
    setupNet { demoOpts with clientIPs := [] } demoSetupEnv =
      (Except.error ("client IP is required"), []) :=
  ⟨rfl, setupNet_empty_clientIPs_fails { demoOpts with clientIPs := [] }
    demoSetupEnv rfl⟩

/-- C3: with at least one well-formed and at least one malformed client IP
string, `setupNet` fails atomically: it returns a parse error and its trace
is empty, so no virtual stack is built from the partial address list. -/
theorem setupNet_malformed_clientIP_fails_atomically
    (opts : Options) (env : SetupEnv) (good bad : String)
    (hgoodMem : good ∈ opts.clientIPs) (hbadMem : bad ∈ opts.clientIPs)
    (hgood : ∃ ip, env.parseAddr good = Except.ok ip)
    (hbad : ∃ e, env.parseAddr bad = Except.error e) :
    (∃ e, (setupNet opts env).fst = Except.error ("parse client IP: " ++ e)) ∧
    (setupNet opts env).snd = [] := by
  have hne : opts.clientIPs.length ≠ 0 := by
    intro h0
    rw [List.length_eq_zero] at h0
    rw [h0] at hbadMem
    cases hbadMem
  obtain ⟨e, he⟩ := parseClientIPs_error_of_mem env.parseAddr opts.clientIPs bad
    hbadMem hbad
  refine ⟨⟨e, ?_⟩, ?_⟩ <;> simp [setupNet, hne, he]

/-- Witness for C3: one valid IP "10.0.0.2" and one malformed "bogus". -/
theorem setupNet_malformed_clientIP_fails_atomically_witness :
    "10.0.0.2" ∈ ["10.0.0.2", "bogus"] ∧ "bogus" ∈ ["10.0.0.2", "bogus"] ∧
    demoSetupEnv.parseAddr "10.0.0.2" = Except.ok { val := "10.0.0.2" } ∧
    demoSetupEnv.parseAddr "bogus" = Except.error ("unable to parse IP") ∧
    ((∃ e, (setupNet { demoOpts with clientIPs := ["10.0.0.2", "bogus"] }
        demoSetupEnv).fst = Except.error ("parse client IP: " ++ e)) ∧
      (setupNet { demoOpts with clientIPs := ["10.0.0.2", "bogus"] }
        demoSetupEnv).snd = []) :=
  ⟨by decide, by decide, rfl, rfl,
   setupNet_malformed_clientIP_fails_atomically
     { demoOpts with clientIPs := ["10.0.0.2", "bogus"] } demoSetupEnv
     "10.0.0.2" "bogus" (by decide) (by decide)
     ⟨{ val := "10.0.0.2" }, rfl⟩ ⟨"unable to parse IP", rfl⟩⟩

/-- C4: if applying the configuration to the constructed device (`ipcSet`)
fails, `setupNet` returns the wrapped error and the device is never
activated: `dev.Up()` does not appear in the trace. -/
theorem setupNet_ipcSet_error_no_activation
    (opts : Options) (env : SetupEnv) (ips : List IPAddr)
    (tun : Tun) (tnet : Tnet) (e : String)
    (hne : opts.clientIPs ≠ [])
    (hparse : parseClientIPs env.parseAddr opts.clientIPs = Except.ok ips)
    (htun : env.createNetTUN ips opts.mtu = Except.ok (tun, tnet))
    (hipc : env.ipcSet { tun := tun, bind := newConnBind opts.clientID } =
      Except.error e) :
    (setupNet opts env).fst = Except.error ("config device: " ++ e) ∧
    SetupEvent.devUpEv ∉ (setupNet opts env).snd := by
  have hlen : opts.clientIPs.length ≠ 0 := by
    intro h0
    exact hne (List.length_eq_zero.mp h0)
  constructor <;> simp [setupNet, hlen, hparse, htun, hipc]

/-- Witness for C4: a run in which `ipcSet` rejects the configuration. -/
theorem setupNet_ipcSet_error_no_activation_witness :
    demoOpts.clientIPs ≠ [] ∧
    parseClientIPs demoSetupEnvIpcFail.parseAddr demoOpts.clientIPs =
      Except.ok [{ val := "10.0.0.2" }] ∧
    demoSetupEnvIpcFail.createNetTUN [{ val := "10.0.0.2" }] demoOpts.mtu =
      Except.ok ({ id := 0 }, { id := 0 }) ∧
    demoSetupEnvIpcFail.ipcSet
        { tun := { id := 0 }, bind := newConnBind demoOpts.clientID } =
      Except.error ("invalid key") ∧
    ((setupNet demoOpts demoSetupEnvIpcFail).fst =
        Except.error ("config device: " ++ "invalid key") ∧
      SetupEvent.devUpEv ∉ (setupNet demoOpts demoSetupEnvIpcFail).snd) :=
  ⟨by decide, rfl, rfl, rfl,
   setupNet_ipcSet_error_no_activation demoOpts demoSetupEnvIpcFail
     [{ val := "10.0.0.2" }] { id := 0 } { id := 0 } "invalid key"
     (by decide) rfl rfl rfl⟩

/-- C9: on success, `setupNet` returns a device whose conn bind is the
Connection Binder's binding for the configured instance identity, and its
trace shows the virtual stack being created (bound to the parsed client
addresses and the configured MTU) strictly before the device: the trace is
exactly createNetTUN, newDevice, ipcSet, dev.Up. -/
theorem setupNet_binds_clientID_and_orders_construction
    (opts : Options) (env : SetupEnv) (dev : Device) (tnet : Tnet)
    (h : (setupNet opts env).fst = Except.ok (dev, tnet)) :
    dev.bind = newConnBind opts.clientID ∧
    ∃ ips, parseClientIPs env.parseAddr opts.clientIPs = Except.ok ips ∧
      env.createNetTUN ips opts.mtu = Except.ok (dev.tun, tnet) ∧
      (setupNet opts env).snd =
        [SetupEvent.createNetTUN ips opts.mtu,
         SetupEvent.newDevice (newConnBind opts.clientID),
         SetupEvent.ipcSetEv, SetupEvent.devUpEv] := by
  by_cases hlen : opts.clientIPs.length = 0
  · simp [setupNet, hlen] at h
  · rcases hparse : parseClientIPs env.parseAddr opts.clientIPs with e | ips
    · simp [setupNet, hlen, hparse] at h
    · rcases htun : env.createNetTUN ips opts.mtu with e | tt
      · simp [setupNet, hlen, hparse, htun] at h
      · obtain ⟨tun, tnet'⟩ := tt
        rcases hipc : env.ipcSet { tun := tun, bind := newConnBind opts.clientID }
          with e | u
        · simp [setupNet, hlen, hparse, htun, hipc] at h
        · rcases hup : env.devUp { tun := tun, bind := newConnBind opts.clientID }
            with e | u'
          · simp [setupNet, hlen, hparse, htun, hipc, hup] at h
          · simp [setupNet, hlen, hparse, htun, hipc, hup] at h
            obtain ⟨hdev, htnet⟩ := h
            subst hdev
            subst htnet
            refine ⟨rfl, ips, rfl, htun, ?_⟩
            simp [setupNet, hlen, hparse, htun, hipc, hup]

/-- Witness for C9: the all-succeeding environment. -/
theorem setupNet_binds_clientID_and_orders_construction_witness :
    (setupNet demoOpts demoSetupEnv).fst =
      Except.ok ({ tun := { id := 0 }, bind := newConnBind "" }, { id := 0 }) ∧
    ({ tun := { id := 0 }, bind := newConnBind "" } : Device).bind =
      newConnBind demoOpts.clientID ∧
    (∃ ips, parseClientIPs demoSetupEnv.parseAddr demoOpts.clientIPs =
        Except.ok ips ∧
      demoSetupEnv.createNetTUN ips demoOpts.mtu =
        Except.ok (({ tun := { id := 0 }, bind := newConnBind "" } : Device).tun,
          { id := 0 }) ∧
      (setupNet demoOpts demoSetupEnv).snd =
        [SetupEvent.createNetTUN ips demoOpts.mtu,
         SetupEvent.newDevice (newConnBind demoOpts.clientID),
         SetupEvent.ipcSetEv, SetupEvent.devUpEv]) :=
  ⟨rfl,
   (setupNet_binds_clientID_and_orders_construction demoOpts demoSetupEnv
     { tun := { id := 0 }, bind := newConnBind "" } { id := 0 } rfl).1,
   (setupNet_binds_clientID_and_orders_construction demoOpts demoSetupEnv
     { tun := { id := 0 }, bind := newConnBind "" } { id := 0 } rfl).2⟩

/-- The error messages `setupNet` can return, each identifying its failing
stage: missing client IPs, client-address parsing, virtual stack creation,
session configuration, session activation. -/
def setupStageMsg (e : String) : Prop :=
  e = "client IP is required" ∨
  (∃ s, e = "parse client IP: " ++ s) ∨
  (∃ s, e = "create netstack tun: " ++ s) ∨
  (∃ s, e = "config device: " ++ s) ∨
  (∃ s, e = "bring up device: " ++ s)

/-- C5: every error `setupNet` returns carries a message identifying the
failing stage, and when `main`'s argument parsing succeeded, a `setupNet`
error makes the process exit with code 1: there is no degraded mode. -/
theorem setupNet_errors_are_staged_and_fatal
    (opts : Options) (env : MainEnv) (e : String)
    (herr : (setupNet opts env.setupEnv).fst = Except.error e) :
    setupStageMsg e ∧
    (env.parse = ParseOutcome.success → mainExitCode opts env = some 1) := by
  refine ⟨?_, fun hp => by simp [mainExitCode, hp, herr]⟩
  unfold setupStageMsg
  by_cases hlen : opts.clientIPs.length = 0
  · simp [setupNet, hlen] at herr
    exact Or.inl herr.symm
  · rcases hparse : parseClientIPs env.setupEnv.parseAddr opts.clientIPs
      with pe | ips
    · simp [setupNet, hlen, hparse] at herr
      exact Or.inr (Or.inl ⟨pe, herr.symm⟩)
    · rcases htun : env.setupEnv.createNetTUN ips opts.mtu with te | tt
      · simp [setupNet, hlen, hparse, htun] at herr
        exact Or.inr (Or.inr (Or.inl ⟨te, herr.symm⟩))
      · obtain ⟨tun, tnet⟩ := tt
        rcases hipc : env.setupEnv.ipcSet
            { tun := tun, bind := newConnBind opts.clientID } with ie | u
        · simp [setupNet, hlen, hparse, htun, hipc] at herr
          exact Or.inr (Or.inr (Or.inr (Or.inl ⟨ie, herr.symm⟩)))
        · rcases hup : env.setupEnv.devUp
              { tun := tun, bind := newConnBind opts.clientID } with ue | u'
          · simp [setupNet, hlen, hparse, htun, hipc, hup] at herr
            exact Or.inr (Or.inr (Or.inr (Or.inr ⟨ue, herr.symm⟩)))
          · simp [setupNet, hlen, hparse, htun, hipc, hup] at herr

/-- A `MainEnv` whose argument parsing succeeds. -/
def demoMainEnvRun : MainEnv :=
  { parse := ParseOutcome.success, setupEnv := demoSetupEnv,
    netEnv := demoNetEnv }

/-- Witness for C5: the missing-client-IP failure. -/
theorem setupNet_errors_are_staged_and_fatal_witness :
    (setupNet { demoOpts with clientIPs := [] } demoMainEnvRun.setupEnv).fst =
      Except.error ("client IP is required") ∧
    demoMainEnvRun.parse = ParseOutcome.success ∧
    (setupStageMsg ("client IP is required") ∧
      (demoMainEnvRun.parse = ParseOutcome.success →
        mainExitCode { demoOpts with clientIPs := [] } demoMainEnvRun =
          some 1)) :=
  ⟨rfl, rfl,
   setupNet_errors_are_staged_and_fatal { demoOpts with clientIPs := [] }
     demoMainEnvRun ("client IP is required") rfl⟩

/-- C6: with a documented exit mode (which the flag parser's choice list
guarantees), `main` exits 0 exactly when the parser reported a help
request, and exits 1 in every other case: other parse errors, `setupNet`
errors, `proxyListener` errors, and a normal return from `Serve`. -/
theorem main_exit_codes
    (opts : Options) (env : MainEnv)
    (hmode : opts.exitMode = "remote" ∨ opts.exitMode = "local") :
    (mainExitCode opts env = some 0 ↔ env.parse = ParseOutcome.helpErr) ∧
    (env.parse ≠ ParseOutcome.helpErr → mainExitCode opts env = some 1) := by
  have h1 : mainExitCode opts env =
      some (if env.parse = ParseOutcome.helpErr then 0 else 1) := by
    rcases hp : env.parse with _ | _ | _ | _
    · rcases hs : (setupNet opts env.setupEnv).fst with se | d
      · simp [mainExitCode, hp, hs]
      · rcases hres : env.netEnv.resolveTCPAddr opts.listen with re | addr
        · simp [mainExitCode, hp, hs, proxyListener, hres]
        · rcases hmode with hm | hm
          · rcases hl : env.netEnv.hostListenTCP addr with le | l <;>
              simp [mainExitCode, hp, hs, proxyListener, hres, hm, hl]
          · rcases hl : env.netEnv.tnetListenTCP addr with le | l <;>
              simp [mainExitCode, hp, hs, proxyListener, hres, hm, hl]
    · simp [mainExitCode, hp]
    · simp [mainExitCode, hp]
    · simp [mainExitCode, hp]
  by_cases hp : env.parse = ParseOutcome.helpErr <;> simp [h1, hp]

/-- A `MainEnv` whose argument parsing reports a help request. -/
def demoMainEnvHelp : MainEnv :=
  { parse := ParseOutcome.helpErr, setupEnv := demoSetupEnv,
    netEnv := demoNetEnv }

/-- Witness for C6: help request at the default exit mode. -/
theorem main_exit_codes_witness :
    demoOpts.exitMode = "remote" ∧
    (mainExitCode demoOpts demoMainEnvHelp = some 0 ↔
      demoMainEnvHelp.parse = ParseOutcome.helpErr) ∧
    (demoMainEnvHelp.parse ≠ ParseOutcome.helpErr →
      mainExitCode demoOpts demoMainEnvHelp = some 1) :=
  ⟨rfl, (main_exit_codes demoOpts demoMainEnvHelp (Or.inl rfl)).1,
   (main_exit_codes demoOpts demoMainEnvHelp (Or.inl rfl)).2⟩
